import Mathlib

/-!
Verification of the provider-agnostic video-generation client
(`video_api.py` and `main.py`) against its specification.

The Python code is shallowly embedded: JSON values become an inductive
`JsonValue`; Python `dict`s / `OrderedDict`s become association lists with
replace-in-place / append-at-end assignment semantics (matching Python's
insertion-ordered dictionaries); fallible constructors return `Except`;
the polling loop becomes a fuel-indexed recursion over an abstract query
oracle (the network call), which also counts the queries it issues.

String operations: Python `str.strip` is modelled by `pyStrip`,
`str.lower`/`str.upper` by `pyLower`/`pyUpper`, and `str.split(",")` by
`pySplitComma`, all written over the character list so that the kernel
can evaluate them (both the code and all inputs considered here are
ASCII, where they agree with Python).
-/

set_option autoImplicit false

namespace VideoTool

/-- A JSON-like Python value tree: `None`, booleans, numbers, strings,
lists and (insertion-ordered, string-keyed) dicts.  JSON numbers are
modelled as integers; no claim touches fractional numbers. -/
inductive JsonValue where
  | null
  | bool (b : Bool)
  | num (n : Int)
  | str (s : String)
  | arr (xs : List JsonValue)
  | obj (fields : List (String × JsonValue))

/-- Python `str.lower()` (ASCII; stated char by char so that the kernel
can evaluate it on literals). -/
def pyLower (s : String) : String := String.mk (s.data.map Char.toLower)

/-- Python `str.upper()` (ASCII). -/
def pyUpper (s : String) : String := String.mk (s.data.map Char.toUpper)

/-- Python `str.strip()`: drop leading and trailing whitespace. -/
def pyStrip (s : String) : String :=
  String.mk (((s.data.dropWhile Char.isWhitespace).reverse.dropWhile Char.isWhitespace).reverse)

/-- Python truthiness (`bool(v)`) of a JSON-like value. -/
def pyTruthy : JsonValue → Bool
  | .null => false
  | .bool b => b
  | .num n => n != 0
  | .str s => s != ""
  | .arr xs => !xs.isEmpty
  | .obj fs => !fs.isEmpty

mutual

/-- Python `repr` of a JSON-like value (string escaping inside `repr` is
not modelled; it never influences emptiness or any claim). -/
def pyRepr : JsonValue → String
  | .null => "None"
  | .bool true => "True"
  | .bool false => "False"
  | .num n => toString n
  | .str s => "'" ++ s ++ "'"
  | .arr xs => "[" ++ pyReprList xs ++ "]"
  | .obj fs => "\x7b" ++ pyReprFields fs ++ "\x7d"

/-- Comma-separated `repr`s of list elements. -/
def pyReprList : List JsonValue → String
  | [] => ""
  | [x] => pyRepr x
  | x :: xs => pyRepr x ++ ", " ++ pyReprList xs

/-- Comma-separated `'key': repr(value)` renderings of dict entries. -/
def pyReprFields : List (String × JsonValue) → String
  | [] => ""
  | [(k, v)] => "'" ++ k ++ "': " ++ pyRepr v
  | (k, v) :: fs => "'" ++ k ++ "': " ++ pyRepr v ++ ", " ++ pyReprFields fs

end

/-- Python `str(v)`: the string itself for strings, `repr`-style rendering
otherwise (as `str` does for `None`, booleans, numbers and containers). -/
def pyStr : JsonValue → String
  | .str s => s
  | v => pyRepr v

/-- First-match lookup in an association list — Python `dict.get(key)`
(real Python dicts have unique keys, so first match is the match). -/
def dictGet {α : Type} : List (String × α) → String → Option α
  | [], _ => none
  | (k, v) :: rest, key => if k = key then some v else dictGet rest key

/-- Python `d[key] = value` on an insertion-ordered dict: if the key is
present its value is replaced in place, otherwise the pair is appended. -/
def dictInsert {α : Type} : List (String × α) → String → α → List (String × α)
  | [], key, value => [(key, value)]
  | (k, v) :: rest, key, value =>
      if k = key then (key, value) :: rest else (k, v) :: dictInsert rest key value

/-- Python `d.update(other)`: successive assignments of `other`'s entries. -/
def dictUpdate {α : Type} (d : List (String × α)) (other : List (String × α)) :
    List (String × α) :=
  other.foldl (fun acc kv => dictInsert acc kv.1 kv.2) d

/-- One token of the JSON-path grammar `([^[\].]+)|\[(\d+)\]` from
`video_api.py`: a bare key or a bracketed non-negative index. -/
inductive PathToken where
  | key (s : String)
  | index (n : Nat)

/-- The characters that terminate a bare-key run: `[`, `]` and `.`
(the negated class of the regex's first alternative). -/
def isDelim (c : Char) : Bool := c = '[' || c = ']' || c = '.'

/-- `int` of a digit run (the bracketed index of `_JSON_PATH_TOKEN`). -/
def digitsVal (ds : List Char) : Nat :=
  ds.foldl (fun n c => n * 10 + (c.toNat - '0'.toNat)) 0

/-- Fuel-indexed scan of `finditer` for
`_JSON_PATH_TOKEN = ([^[\].]+)|\[(\d+)\]`: at each position the key
alternative is tried first (a maximal run of non-delimiter characters);
at a `[` a full `[digits]` group is required, otherwise the scan advances
one character, exactly as `re.finditer` behaves on this pattern.  Every
step consumes at least one character, so fuel equal to the input length
(supplied by `tokenize`) never runs out. -/
def tokenizeAux : Nat → List Char → List PathToken
  | 0, _ => []
  | _, [] => []
  | fuel + 1, '[' :: rest =>
      let ds := rest.takeWhile Char.isDigit
      match rest.drop ds.length with
      | ']' :: after =>
          if ds.isEmpty then tokenizeAux fuel rest
          else PathToken.index (digitsVal ds) :: tokenizeAux fuel after
      | _ => tokenizeAux fuel rest
  | fuel + 1, ']' :: rest => tokenizeAux fuel rest
  | fuel + 1, '.' :: rest => tokenizeAux fuel rest
  | fuel + 1, c :: rest =>
      PathToken.key (String.mk (c :: rest.takeWhile (fun d => !isDelim d))) ::
        tokenizeAux fuel (rest.dropWhile (fun d => !isDelim d))

/-- The token stream of a path string. -/
def tokenize (cs : List Char) : List PathToken := tokenizeAux cs.length cs

/-- The traversal loop of `extract_json_path`: walk the token list from
the current value; a key token requires a mapping and a present key, an
index token requires a list and an in-range index, and a `None` reached
at any point stops the walk (`if current is None: return None`). -/
def extractTokens : JsonValue → List PathToken → JsonValue
  | current, [] => current
  | current, PathToken.key k :: rest =>
      match current with
      | .obj fs =>
          match dictGet fs k with
          | none => .null
          | some v => match v with
            | .null => .null
            | v => extractTokens v rest
      | _ => .null
  | current, PathToken.index i :: rest =>
      match current with
      | .arr xs =>
          match xs.get? i with
          | none => .null
          | some v => match v with
            | .null => .null
            | v => extractTokens v rest
      | _ => .null

/-- `extract_json_path(payload, path)` from `video_api.py`: `None` for
the empty path, otherwise the token walk over the tokenized path
(`JsonValue.null` plays the role of Python's `None` result). -/
def extract_json_path (payload : JsonValue) (path : String) : JsonValue :=
  if path = "" then .null else extractTokens payload (tokenize path.data)

/-- `ProviderConfig` from `video_api.py`, defaults included.  The
`extra_headers` dataclass annotation (`dict[str, str]`) is unenforced in
Python — the loader actually stores arbitrary JSON values there — so both
extension maps are JSON-valued here. -/
structure ProviderConfig where
  provider_id : String
  base_url : String
  api_key : String := ""
  model : String := ""
  submit_path : String := "/v1/videos"
  status_path_template : String := "/v1/videos/\x7btask_id\x7d"
  submit_method : String := "POST"
  status_method : String := "GET"
  prompt_field : String := "prompt"
  model_field : String := "model"
  task_id_field : String := "id"
  status_field : String := "status"
  output_url_field : String := "output[0].url"
  error_field : String := "error.message"
  done_values : List String := ["succeeded", "completed", "success", "done", "finished"]
  failed_values : List String := ["failed", "error", "cancelled", "canceled", "rejected"]
  extra_headers : List (String × JsonValue) := []
  extra_body : List (String × JsonValue) := []
  status_request_id_field : String := ""
  duration_field : String := "duration"
  aspect_ratio_field : String := "aspect_ratio"

/-- `TaskSnapshot` from `video_api.py`; `raw` keeps the decoded body. -/
structure TaskSnapshot where
  provider_id : String
  task_id : String
  status : String
  video_url : String := ""
  error_message : String := ""
  raw : JsonValue := .obj []

/-- `VideoApiClient._as_text`: `None` becomes the default, strings pass
through, anything else is rendered with `str`. -/
def as_text (value : JsonValue) (default : String := "") : String :=
  match value with
  | .null => default
  | .str s => s
  | v => pyStr v

/-- `VideoGenerateToolPlugin._is_terminal`: a non-empty `video_url` is
terminal; otherwise the stripped, lower-cased status must be among the
lower-cased `done_values` or `failed_values` (Python's set membership is
list membership here).  `snapshot.status or ""` is the identity on the
string-valued `status` field. -/
def is_terminal (provider : ProviderConfig) (snapshot : TaskSnapshot) : Bool :=
  if snapshot.video_url ≠ "" then true
  else
    let status := pyLower (pyStrip snapshot.status)
    (provider.done_values.map pyLower).contains status ||
      (provider.failed_values.map pyLower).contains status

/-- `VideoGenerateToolPlugin._is_failed`: status in `failed_values`, or a
terminal status accompanied by an error message and no artifact URL. -/
def is_failed (provider : ProviderConfig) (snapshot : TaskSnapshot) : Bool :=
  let status := pyLower (pyStrip snapshot.status)
  let failed := provider.failed_values.map pyLower
  if failed.contains status then true
  else
    let done := provider.done_values.map pyLower
    let is_terminal_status := done.contains status || failed.contains status
    is_terminal_status && snapshot.error_message ≠ "" && snapshot.video_url = ""

/-- The model resolution of `VideoApiClient.submit` (line 138):
`model_override.strip() if model_override else provider.model.strip()`. -/
def resolve_model (provider : ProviderConfig) (model_override : String) : String :=
  if model_override ≠ "" then pyStrip model_override else pyStrip provider.model

/-- The request body built by `VideoApiClient.submit` (lines 136-142):
`extra_body`, then the prompt, then the resolved model when non-empty,
then `extra_options` applied last via `payload.update` (an empty
`extra_options` skips the update, which is the same as updating with
nothing). -/
def submit_payload (provider : ProviderConfig) (prompt : String) (model_override : String)
    (extra_options : List (String × JsonValue)) : List (String × JsonValue) :=
  let payload := provider.extra_body
  let payload := dictInsert payload provider.prompt_field (.str prompt)
  let model := resolve_model provider model_override
  let payload := if model ≠ "" then dictInsert payload provider.model_field (.str model)
    else payload
  dictUpdate payload extra_options

/-- `VideoApiClient._snapshot_from_payload`: extract the task id (falling
back to `fallback_task_id` when empty), status (default `"unknown"`),
artifact URL and error message; fail when both the task id and the URL
come out empty, otherwise build the snapshot. -/
def snapshot_from_payload (provider : ProviderConfig) (payload : JsonValue)
    (fallback_task_id : String := "") : Except String TaskSnapshot :=
  let extracted_id := as_text (extract_json_path payload provider.task_id_field)
  let task_id := if extracted_id = "" then fallback_task_id else extracted_id
  let status := as_text (extract_json_path payload provider.status_field) "unknown"
  let video_url := as_text (extract_json_path payload provider.output_url_field)
  let error_message := as_text (extract_json_path payload provider.error_field)
  if task_id = "" ∧ video_url = "" then
    .error "no task id or video url in response"
  else
    .ok { provider_id := provider.provider_id, task_id := task_id, status := status,
          video_url := video_url, error_message := error_message, raw := payload }

/-- The response-to-snapshot step of `VideoApiClient.query` (line 184):
the originally supplied `task_id` is passed as the fallback. -/
def query_snapshot (provider : ProviderConfig) (payload : JsonValue) (task_id : String) :
    Except String TaskSnapshot :=
  snapshot_from_payload provider payload task_id

/-- The polling loop body of `VideoGenerateToolPlugin._wait_for_result`
(lines 303-329).  The network call is abstracted as `query : Nat →
Except String TaskSnapshot` (result of the attempt with that index); the
second component of the result counts queries actually issued.  A failed
query bumps the consecutive-error counter and, at
`max_transient_errors = 3`, returns the synthesized snapshot
(`status=latest.status or "error"`, the triggering error text); a
successful query resets the counter, replaces `latest`, and returns it
when terminal.  Exhausted attempts return the latest snapshot. -/
def pollLoop (provider : ProviderConfig) (query : Nat → Except String TaskSnapshot)
    (latest : TaskSnapshot) (consecutive_errors : Nat) (attempt : Nat) :
    Nat → TaskSnapshot × Nat
  | 0 => (latest, attempt)
  | remaining + 1 =>
      match query attempt with
      | .error exc =>
          let consecutive_errors := consecutive_errors + 1
          if 3 ≤ consecutive_errors then
            ({ provider_id := latest.provider_id, task_id := latest.task_id,
               status := if latest.status = "" then "error" else latest.status,
               video_url := latest.video_url, error_message := exc,
               raw := latest.raw }, attempt + 1)
          else pollLoop provider query latest consecutive_errors (attempt + 1) remaining
      | .ok s =>
          if is_terminal provider s then (s, attempt + 1)
          else pollLoop provider query s 0 (attempt + 1) remaining

/-- `VideoGenerateToolPlugin._wait_for_result`: an already-terminal or
id-less snapshot returns immediately with no query; otherwise the loop
runs for `max(attempts, 1)` iterations (line 298; the sleep interval has
no bearing on the result). -/
def wait_for_result (provider : ProviderConfig) (snapshot : TaskSnapshot) (attempts : Nat)
    (query : Nat → Except String TaskSnapshot) : TaskSnapshot × Nat :=
  if is_terminal provider snapshot then (snapshot, 0)
  else if snapshot.task_id = "" then (snapshot, 0)
  else pollLoop provider query snapshot 0 0 (max attempts 1)

/-- The scan behind Python `str.split(",")`: characters accumulate into
the current part (kept reversed) and each comma closes a part. -/
def splitCommaAux : List Char → List Char → List String
  | [], acc => [String.mk acc.reverse]
  | ',' :: rest, acc => String.mk acc.reverse :: splitCommaAux rest []
  | c :: rest, acc => splitCommaAux rest (c :: acc)

/-- Python `str.split(",")` (`"".split(",") == [""]`, as in Python). -/
def pySplitComma (s : String) : List String := splitCommaAux s.data []

/-- `VideoGenerateToolPlugin._parse_csv`: split on commas, strip each
part, keep the non-blank ones. -/
def parse_csv (raw_text : String) : List String :=
  ((pySplitComma raw_text).map pyStrip).filter (fun part => part ≠ "")

/-- `VideoGenerateToolPlugin._parse_json_object`.  `json.loads` is taken
as a parameter (`jsonParse`, `none` modelling `JSONDecodeError`): an
already-structured mapping passes through; otherwise
`str(raw_value or "")` is stripped and parsed, with anything but a JSON
object yielding the empty map, never an exception. -/
def parse_json_object (jsonParse : String → Option JsonValue) (raw_value : JsonValue) :
    List (String × JsonValue) :=
  match raw_value with
  | .obj fs => fs
  | v =>
      let text := pyStrip (pyStr (if pyTruthy v then v else .str ""))
      if text = "" then []
      else
        match jsonParse text with
        | none => []
        | some (.obj fs) => fs
        | some _ => []

/-- `VideoGenerateToolPlugin._VALID_HTTP_METHODS`. -/
def validMethods : List String := ["GET", "POST", "PUT", "PATCH", "DELETE"]

/-- One iteration of `VideoGenerateToolPlugin._load_providers` (lines
377-433): non-mappings are skipped; `provider_id` and `base_url` must be
non-blank after `str(...).strip()`; both HTTP methods must, after
stripping and upper-casing, be valid; then the full `ProviderConfig` is
built with every default of the source. -/
def loadRecord (jsonParse : String → Option JsonValue) (item : JsonValue) :
    Option (String × ProviderConfig) :=
  match item with
  | .obj fs =>
      let get := fun (key : String) (default : JsonValue) => (dictGet fs key).getD default
      let provider_id := pyStrip (pyStr (get "provider_id" (.str "")))
      let base_url := pyStrip (pyStr (get "base_url" (.str "")))
      if provider_id = "" ∨ base_url = "" then none
      else
        let submit_method := pyUpper (pyStrip (pyStr (get "submit_method" (.str "POST"))))
        let status_method := pyUpper (pyStrip (pyStr (get "status_method" (.str "GET"))))
        if ¬ validMethods.contains submit_method then none
        else if ¬ validMethods.contains status_method then none
        else
          let done_values := parse_csv
            (pyStr (get "done_values" (.str "succeeded,completed,success,done,finished")))
          let failed_values := parse_csv
            (pyStr (get "failed_values" (.str "failed,error,cancelled,canceled,rejected")))
          some (provider_id,
            { provider_id := provider_id
              base_url := base_url
              api_key := pyStrip (pyStr (get "api_key" (.str "")))
              model := pyStrip (pyStr (get "model" (.str "")))
              submit_path := pyStrip (pyStr (get "submit_path" (.str "/v1/videos")))
              status_path_template :=
                pyStrip (pyStr (get "status_path_template" (.str "/v1/videos/\x7btask_id\x7d")))
              submit_method := submit_method
              status_method := status_method
              prompt_field := pyStrip (pyStr (get "prompt_field" (.str "prompt")))
              model_field := pyStrip (pyStr (get "model_field" (.str "model")))
              task_id_field := pyStrip (pyStr (get "task_id_field" (.str "id")))
              status_field := pyStrip (pyStr (get "status_field" (.str "status")))
              output_url_field :=
                pyStrip (pyStr (get "output_url_field" (.str "output[0].url")))
              error_field := pyStrip (pyStr (get "error_field" (.str "error.message")))
              done_values := if done_values.isEmpty then
                  ["succeeded", "completed", "success", "done", "finished"]
                else done_values
              failed_values := if failed_values.isEmpty then
                  ["failed", "error", "cancelled", "canceled", "rejected"]
                else failed_values
              extra_headers :=
                parse_json_object jsonParse (get "extra_headers_json" (.str "\x7b\x7d"))
              extra_body :=
                parse_json_object jsonParse (get "extra_body_json" (.str "\x7b\x7d"))
              status_request_id_field :=
                pyStrip (pyStr (get "status_request_id_field" (.str "")))
              duration_field :=
                let s := pyStrip (pyStr (get "duration_field" (.str "duration")))
                if s = "" then "duration" else s
              aspect_ratio_field :=
                let s := pyStrip (pyStr (get "aspect_ratio_field" (.str "aspect_ratio")))
                if s = "" then "aspect_ratio" else s })
  | _ => none

/-- The `for item in providers` loop of `_load_providers`: skipped
records leave the accumulated map untouched, accepted records are
assigned under their `provider_id` (a duplicate id overwrites). -/
def loadItems (jsonParse : String → Option JsonValue) :
    List JsonValue → List (String × ProviderConfig) → List (String × ProviderConfig)
  | [], acc => acc
  | item :: rest, acc =>
      match loadRecord jsonParse item with
      | none => loadItems jsonParse rest acc
      | some (pid, cfg) => loadItems jsonParse rest (dictInsert acc pid cfg)

/-- `VideoGenerateToolPlugin._load_providers`: a non-list `providers`
configuration value yields the empty map, a list is folded record by
record. -/
def load_providers (jsonParse : String → Option JsonValue) (providers : JsonValue) :
    List (String × ProviderConfig) :=
  match providers with
  | .arr items => loadItems jsonParse items []
  | _ => []

/-- `_TASK_CACHE_MAX` from `main.py`. -/
def TASK_CACHE_MAX : Nat := 200

/-- The `while len(self._task_cache) > self._TASK_CACHE_MAX:
popitem(last=False)` loop of `_save_task`, fuel-indexed: each iteration
drops the least-recently-inserted (front) entry; fuel equal to the
cache length (supplied by `save_task_cache`) never runs out. -/
def cacheEvict {α : Type} : Nat → List (String × α) → List (String × α)
  | 0, cache => cache
  | fuel + 1, cache =>
      if TASK_CACHE_MAX < cache.length then cacheEvict fuel cache.tail else cache

/-- The cache effect of `VideoGenerateToolPlugin._save_task` (lines
474-491): an empty task id leaves the cache alone; otherwise the record
is assigned under the task id and the eviction loop runs. -/
def save_task_cache {α : Type} (cache : List (String × α)) (task_id : String) (record : α) :
    List (String × α) :=
  if task_id = "" then cache
  else
    let cache := dictInsert cache task_id record
    cacheEvict cache.length cache

/-- `VideoGenerateToolPlugin._load_task` (lines 496-505): a cache hit
returns the cached record; otherwise the external store (abstracted as
`stored`, `none` covering both an absent key and a non-mapping value) is
consulted, and a hit there is inserted into the cache — with no eviction
loop. -/
def load_task_cache {α : Type} (cache : List (String × α)) (stored : Option α)
    (task_id : String) : Option α × List (String × α) :=
  match dictGet cache task_id with
  | some record => (some record, cache)
  | none =>
      match stored with
      | some record => (some record, dictInsert cache task_id record)
      | none => (none, cache)

/-- Left-biased choice on options (`a` if present, else `b`), used to
state dict-overlay precedence. -/
def optOr {α : Type} (a b : Option α) : Option α :=
  match a with
  | some v => some v
  | none => b

section Lemmas

variable {α : Type}

theorem dictGet_dictInsert (d : List (String × α)) (k key : String) (v : α) :
    dictGet (dictInsert d k v) key = if key = k then some v else dictGet d key := by
  induction d with
  | nil =>
      by_cases h : key = k
      · simp [dictInsert, dictGet, h]
      · have h' : ¬ k = key := fun hh => h hh.symm
        simp [dictInsert, dictGet, h, h']
  | cons kv rest ih =>
      obtain ⟨k0, v0⟩ := kv
      by_cases h0 : k0 = k
      · subst h0
        by_cases h : key = k0
        · simp [dictInsert, dictGet, h]
        · have h' : ¬ k0 = key := fun hh => h hh.symm
          simp [dictInsert, dictGet, h, h']
      · by_cases h : key = k0
        · subst h
          simp [dictInsert, dictGet, h0, Ne.symm h0]
        · have h' : ¬ k0 = key := fun hh => h hh.symm
          simp [dictInsert, dictGet, h0, h, h', ih]

theorem dictGet_eq_none_of_not_mem (d : List (String × α)) (key : String)
    (h : key ∉ d.map Prod.fst) : dictGet d key = none := by
  induction d with
  | nil => rfl
  | cons kv rest ih =>
      simp only [List.map_cons, List.mem_cons] at h
      push_neg at h
      simpa [dictGet, Ne.symm h.1] using ih h.2

theorem dictGet_dictUpdate (d other : List (String × α)) (key : String)
    (hnd : (other.map Prod.fst).Nodup) :
    dictGet (dictUpdate d other) key = optOr (dictGet other key) (dictGet d key) := by
  induction other generalizing d with
  | nil => simp [dictUpdate, dictGet, optOr]
  | cons kv rest ih =>
      obtain ⟨k0, v0⟩ := kv
      simp only [List.map_cons, List.nodup_cons] at hnd
      have step : dictUpdate d ((k0, v0) :: rest) = dictUpdate (dictInsert d k0 v0) rest := by
        simp [dictUpdate]
      rw [step, ih _ hnd.2]
      by_cases h : key = k0
      · subst h
        rw [dictGet_eq_none_of_not_mem rest key hnd.1]
        simp [dictGet, dictGet_dictInsert, optOr]
      · simp [dictGet, dictGet_dictInsert, h, Ne.symm h]

theorem contains_map_pyLower (l : List String) (s : String) :
    (l.map pyLower).contains s = true ↔ ∃ m, m ∈ l ∧ s = pyLower m := by
  simp only [List.contains, List.elem_eq_mem, decide_eq_true_eq, List.mem_map]
  constructor
  · rintro ⟨m, hm, rfl⟩
    exact ⟨m, hm, rfl⟩
  · rintro ⟨m, hm, rfl⟩
    exact ⟨m, hm, rfl⟩

end Lemmas

/-- A provider with the dataclass defaults (used in concrete scenarios). -/
def defaultProvider : ProviderConfig :=
  { provider_id := "p1", base_url := "https://api.example.com" }

/-- An in-progress snapshot carrying a transient error message. -/
def processingSnap : TaskSnapshot :=
  { provider_id := "p1", task_id := "t1", status := "processing",
    error_message := "temporary glitch" }

/-- A snapshot whose status is in `failed_values` but which carries an
artifact URL. -/
def urlFailedSnap : TaskSnapshot :=
  { provider_id := "p1", task_id := "t1", status := "failed",
    video_url := "https://cdn.example.com/v.mp4" }

/-- Claim C1, as stated, is false on the code: `_is_failed` checks
`failed_values` membership before ever looking at `video_url`, so the
snapshot `urlFailedSnap` (status `"failed"`, non-empty `video_url`) is
classified failed even though it carries an artifact URL. -/
theorem c1_url_failed_status_counterexample :
    urlFailedSnap.video_url ≠ "" ∧ is_failed defaultProvider urlFailedSnap = true := by
  constructor
  · decide
  · decide

/-- Claim C1 (amended): for every provider and snapshot with a non-empty
`video_url`, `_is_terminal` returns true regardless of the status string,
and `_is_failed` returns false unless the trimmed, lower-cased status is
in the lower-cased `failed_values` (in which case it still returns true). -/
theorem c1_video_url_terminal_amended (p : ProviderConfig) (s : TaskSnapshot)
    (h : s.video_url ≠ "") :
    is_terminal p s = true ∧
      (is_failed p s = true ↔
        (p.failed_values.map pyLower).contains (pyLower (pyStrip s.status)) = true) := by
  constructor
  · simp [is_terminal, h]
  · by_cases hc : (p.failed_values.map pyLower).contains (pyLower (pyStrip s.status)) = true
    · have htrue : is_failed p s = true := by
        simp only [is_failed]
        rw [if_pos hc]
      rw [htrue, hc]
    · have hb : (p.failed_values.map pyLower).contains (pyLower (pyStrip s.status)) = false := by
        cases hx : (p.failed_values.map pyLower).contains (pyLower (pyStrip s.status))
        · rfl
        · exact absurd hx hc
      have hfalse : is_failed p s = false := by
        simp only [is_failed]
        rw [if_neg hc, hb]
        simp [h]
      rw [hfalse, hb]

/-- Witness for the amended C1 at a concrete input. -/
theorem c1_video_url_terminal_amended_witness :
    is_terminal defaultProvider urlFailedSnap = true ∧
      is_failed defaultProvider urlFailedSnap = true := by
  have h := c1_video_url_terminal_amended defaultProvider urlFailedSnap (by decide)
  exact ⟨h.1, h.2.mpr (by decide)⟩

/-- Claim C2: `_is_failed` is true exactly when the trimmed, lower-cased
status is in the lower-cased `failed_values`, or the status is terminal
(in `done_values` or `failed_values`) with a non-empty `error_message`
and an empty `video_url`; in particular a `"processing"` snapshot with a
non-empty error message is not reported failed. -/
theorem c2_is_failed_iff :
    (∀ (p : ProviderConfig) (s : TaskSnapshot),
      is_failed p s = true ↔
        ((p.failed_values.map pyLower).contains (pyLower (pyStrip s.status)) = true
          ∨ (((p.done_values.map pyLower).contains (pyLower (pyStrip s.status)) = true
              ∨ (p.failed_values.map pyLower).contains (pyLower (pyStrip s.status)) = true)
            ∧ s.error_message ≠ "" ∧ s.video_url = "")))
    ∧ is_failed defaultProvider processingSnap = false := by
  constructor
  · intro p s
    by_cases hc : (p.failed_values.map pyLower).contains (pyLower (pyStrip s.status)) = true
    · have htrue : is_failed p s = true := by
        simp only [is_failed]
        rw [if_pos hc]
      rw [htrue]
      constructor
      · intro _
        exact Or.inl hc
      · intro _
        rfl
    · have hb : (p.failed_values.map pyLower).contains (pyLower (pyStrip s.status)) = false := by
        cases hx : (p.failed_values.map pyLower).contains (pyLower (pyStrip s.status))
        · rfl
        · exact absurd hx hc
      have hne : is_failed p s =
          (((p.done_values.map pyLower).contains (pyLower (pyStrip s.status))
            || (p.failed_values.map pyLower).contains (pyLower (pyStrip s.status)))
           && s.error_message ≠ "" && s.video_url = "") := by
        simp only [is_failed]
        rw [if_neg hc]
      rw [hne, hb]
      simp
      tauto
  · decide

/-- Claim C3: with an empty `video_url`, `_is_terminal` holds exactly
when the stripped, lower-cased status coincides, case-insensitively,
with some member of `done_values` or `failed_values`. -/
theorem c3_is_terminal_iff (p : ProviderConfig) (s : TaskSnapshot) (h : s.video_url = "") :
    is_terminal p s = true ↔
      ∃ m, (m ∈ p.done_values ∨ m ∈ p.failed_values) ∧
        pyLower (pyStrip s.status) = pyLower m := by
  have hterm : is_terminal p s =
      ((p.done_values.map pyLower).contains (pyLower (pyStrip s.status))
        || (p.failed_values.map pyLower).contains (pyLower (pyStrip s.status))) := by
    simp only [is_terminal]
    rw [if_neg (by simp [h])]
  rw [hterm, Bool.or_eq_true, contains_map_pyLower, contains_map_pyLower]
  constructor
  · rintro (⟨m, hm, he⟩ | ⟨m, hm, he⟩)
    · exact ⟨m, Or.inl hm, he⟩
    · exact ⟨m, Or.inr hm, he⟩
  · rintro ⟨m, hm | hm, he⟩
    · exact Or.inl ⟨m, hm, he⟩
    · exact Or.inr ⟨m, hm, he⟩

/-- Witness for C3: a mixed-case, padded done-status with no URL is
terminal under the default vocabularies. -/
theorem c3_is_terminal_iff_witness :
    is_terminal defaultProvider
      { provider_id := "p1", task_id := "t1", status := " Succeeded ", video_url := "" }
      = true :=
  (c3_is_terminal_iff defaultProvider _ rfl).mpr ⟨"succeeded", Or.inl (by decide), by decide⟩

theorem tokenizeAux_eq_nil_of_delims (fuel : Nat) :
    ∀ cs : List Char, (∀ c ∈ cs, c = '[' ∨ c = ']' ∨ c = '.') → tokenizeAux fuel cs = [] := by
  induction fuel with
  | zero => intro cs _; cases cs <;> rfl
  | succ n ih =>
      intro cs h
      match cs with
      | [] => rfl
      | c :: rest =>
          have hc := h c (List.mem_cons_self c rest)
          have hrest : ∀ c ∈ rest, c = '[' ∨ c = ']' ∨ c = '.' :=
            fun d hd => h d (List.mem_cons_of_mem c hd)
          rcases hc with h1 | h1 | h1
          · subst h1
            have hds : rest.takeWhile Char.isDigit = [] := by
              cases rest with
              | nil => rfl
              | cons r rs =>
                  have hr := hrest r (List.mem_cons_self r rs)
                  have hdig : Char.isDigit r = false := by
                    rcases hr with h2 | h2 | h2 <;> subst h2 <;> rfl
                  simp [List.takeWhile, hdig]

            simp only [tokenizeAux, hds, List.length_nil, List.drop_zero, List.isEmpty_nil]
            cases rest with
            | nil => exact ih [] (by simp)
            | cons r rs =>
                rcases hrest r (List.mem_cons_self r rs) with h2 | h2 | h2 <;> subst h2 <;>
                  exact ih _ hrest
          · subst h1
            simpa only [tokenizeAux] using ih rest hrest
          · subst h1
            simpa only [tokenizeAux] using ih rest hrest

/-- Claim C10: a non-empty path made exclusively of the delimiter
characters `[`, `]` and `.` (hence containing no key run and no
bracketed digit group) tokenizes to nothing, and `extract_json_path`
then returns the root payload unchanged. -/
theorem c10_tokenless_path_returns_root (payload : JsonValue) (path : String)
    (h1 : path ≠ "") (h2 : ∀ c ∈ path.data, c = '[' ∨ c = ']' ∨ c = '.') :
    extract_json_path payload path = payload := by
  simp only [extract_json_path, if_neg h1, tokenize]
  rw [tokenizeAux_eq_nil_of_delims _ _ h2]
  rfl

/-- Witness for C10 on the paths named by the claim. -/
theorem c10_tokenless_path_returns_root_witness :
    extract_json_path (JsonValue.str "root") "." = JsonValue.str "root"
    ∧ extract_json_path (JsonValue.str "root") "..." = JsonValue.str "root"
    ∧ extract_json_path (JsonValue.str "root") "[]" = JsonValue.str "root" :=
  ⟨c10_tokenless_path_returns_root _ "." (by decide) (by decide),
   c10_tokenless_path_returns_root _ "..." (by decide) (by decide),
   c10_tokenless_path_returns_root _ "[]" (by decide) (by decide)⟩

/-- `isinstance(current, Mapping)` on a JSON-like value. -/
def isMapping : JsonValue → Bool
  | .obj _ => true
  | _ => false

/-- `isinstance(current, list)` on a JSON-like value. -/
def isSequence : JsonValue → Bool
  | .arr _ => true
  | _ => false

/-- The payload of the spec's path-extraction example. -/
def c5Payload : JsonValue :=
  .obj [("a", .obj [("b", .arr [.obj [], .obj [("c", .str "x")]])])]

/-- Claim C5: `extract_json_path` is a total function (it is defined by
structural recursion, so no exception can escape); the empty path gives
"not found"; a key token on a non-mapping, an absent key, an index token
on a non-sequence, an out-of-range index, and a null current value all
give "not found"; and the spec's example `a.b[1].c` yields `"x"`. -/
theorem c5_extract_total_spec :
    (∀ payload : JsonValue, extract_json_path payload "" = JsonValue.null)
    ∧ extract_json_path c5Payload "a.b[1].c" = JsonValue.str "x"
    ∧ (∀ (v : JsonValue) (k : String) (rest : List PathToken), isMapping v = false →
        extractTokens v (PathToken.key k :: rest) = JsonValue.null)
    ∧ (∀ (fs : List (String × JsonValue)) (k : String) (rest : List PathToken),
        dictGet fs k = none →
        extractTokens (JsonValue.obj fs) (PathToken.key k :: rest) = JsonValue.null)
    ∧ (∀ (v : JsonValue) (i : Nat) (rest : List PathToken), isSequence v = false →
        extractTokens v (PathToken.index i :: rest) = JsonValue.null)
    ∧ (∀ (xs : List JsonValue) (i : Nat) (rest : List PathToken), xs.length ≤ i →
        extractTokens (JsonValue.arr xs) (PathToken.index i :: rest) = JsonValue.null)
    ∧ (∀ (t : PathToken) (ts : List PathToken),
        extractTokens JsonValue.null (t :: ts) = JsonValue.null) := by
  refine ⟨fun payload => rfl, rfl, ?_, ?_, ?_, ?_, ?_⟩
  · intro v k rest h
    cases v with
    | obj fs => simp [isMapping] at h
    | null => rfl
    | bool b => rfl
    | num n => rfl
    | str s => rfl
    | arr xs => rfl
  · intro fs k rest h
    simp [extractTokens, h]
  · intro v i rest h
    cases v with
    | arr xs => simp [isSequence] at h
    | null => rfl
    | bool b => rfl
    | num n => rfl
    | str s => rfl
    | obj fs => rfl
  · intro xs i rest h
    simp [extractTokens, List.getElem?_eq_none h]
  · intro t ts
    cases t <;> rfl

/-- Witness for C5's conditional parts at concrete inputs. -/
theorem c5_extract_total_spec_witness :
    extractTokens (JsonValue.str "q") [PathToken.key "a"] = JsonValue.null
    ∧ extractTokens (JsonValue.obj []) [PathToken.key "a"] = JsonValue.null
    ∧ extractTokens (JsonValue.str "q") [PathToken.index 0] = JsonValue.null
    ∧ extractTokens (JsonValue.arr []) [PathToken.index 0] = JsonValue.null :=
  ⟨c5_extract_total_spec.2.2.1 (JsonValue.str "q") "a" [] (by decide),
   c5_extract_total_spec.2.2.2.1 [] "a" [] rfl,
   c5_extract_total_spec.2.2.2.2.1 (JsonValue.str "q") 0 [] (by decide),
   c5_extract_total_spec.2.2.2.2.2.1 [] 0 [] (by decide)⟩

/-- Claim C7: snapshot construction fails exactly when the extracted
task id is empty, the fallback is empty, and the extracted artifact URL
is empty; and a `query` response with its non-empty supplied `task_id`
as fallback always yields a snapshot with a non-empty task id, equal to
the supplied id whenever extraction from the body gave nothing. -/
theorem c7_snapshot_rejection (p : ProviderConfig) (payload : JsonValue) (fb : String) :
    ((∃ e, snapshot_from_payload p payload fb = Except.error e) ↔
      (as_text (extract_json_path payload p.task_id_field) = "" ∧ fb = ""
        ∧ as_text (extract_json_path payload p.output_url_field) = ""))
    ∧ (fb ≠ "" → ∃ s, query_snapshot p payload fb = Except.ok s ∧ s.task_id ≠ ""
        ∧ (as_text (extract_json_path payload p.task_id_field) = "" → s.task_id = fb)) := by
  constructor
  · constructor
    · rintro ⟨e, he⟩
      simp only [snapshot_from_payload] at he
      by_cases hE : as_text (extract_json_path payload p.task_id_field) = ""
      · rw [if_pos hE] at he
        by_cases hC : fb = "" ∧ as_text (extract_json_path payload p.output_url_field) = ""
        · exact ⟨hE, hC.1, hC.2⟩
        · rw [if_neg hC] at he
          exact absurd he (by simp)
      · rw [if_neg hE] at he
        rw [if_neg (fun hc => hE hc.1)] at he
        exact absurd he (by simp)
    · rintro ⟨hE, hfb, hU⟩
      refine ⟨"no task id or video url in response", ?_⟩
      simp only [snapshot_from_payload]
      rw [if_pos ⟨by rw [if_pos hE]; exact hfb, hU⟩]
  · intro hfb
    by_cases hE : as_text (extract_json_path payload p.task_id_field) = ""
    · have hok : query_snapshot p payload fb = Except.ok
          { provider_id := p.provider_id, task_id := fb,
            status := as_text (extract_json_path payload p.status_field) "unknown",
            video_url := as_text (extract_json_path payload p.output_url_field),
            error_message := as_text (extract_json_path payload p.error_field),
            raw := payload } := by
        simp only [query_snapshot, snapshot_from_payload]
        rw [if_pos hE, if_neg (fun hc => hfb hc.1)]
      exact ⟨_, hok, hfb, fun _ => rfl⟩
    · have hok : query_snapshot p payload fb = Except.ok
          { provider_id := p.provider_id,
            task_id := as_text (extract_json_path payload p.task_id_field),
            status := as_text (extract_json_path payload p.status_field) "unknown",
            video_url := as_text (extract_json_path payload p.output_url_field),
            error_message := as_text (extract_json_path payload p.error_field),
            raw := payload } := by
        simp only [query_snapshot, snapshot_from_payload]
        rw [if_neg hE, if_neg (fun hc => hE hc.1)]
      exact ⟨_, hok, hE, fun hE' => absurd hE' hE⟩

/-- Witness for C7: a body carrying neither id nor URL, queried with the
supplied id `"t1"`, produces a snapshot whose task id is `"t1"`. -/
theorem c7_snapshot_rejection_witness :
    ∃ s, query_snapshot defaultProvider (JsonValue.obj []) "t1" = Except.ok s
      ∧ s.task_id = "t1" := by
  obtain ⟨s, hok, _, hback⟩ :=
    (c7_snapshot_rejection defaultProvider (JsonValue.obj []) "t1").2 (by decide)
  exact ⟨s, hok, hback rfl⟩

/-- Claim C6: looked up at any key, the submit body is `extra_body`
overlaid by the prompt, the resolved model (omitted when empty) and
finally `extra_options`, with later layers winning. -/
theorem c6_submit_payload_layers (p : ProviderConfig) (prompt model_override : String)
    (eo : List (String × JsonValue)) (hnd : (eo.map Prod.fst).Nodup) (k : String) :
    dictGet (submit_payload p prompt model_override eo) k =
      optOr (dictGet eo k)
        (optOr (if k = p.model_field ∧ resolve_model p model_override ≠ ""
                then some (JsonValue.str (resolve_model p model_override)) else none)
          (optOr (if k = p.prompt_field then some (JsonValue.str prompt) else none)
            (dictGet p.extra_body k))) := by
  simp only [submit_payload]
  rw [dictGet_dictUpdate _ _ _ hnd]
  congr 1
  by_cases hm : resolve_model p model_override ≠ ""
  · rw [if_pos hm, dictGet_dictInsert]
    by_cases hk1 : k = p.model_field
    · simp [hk1, hm, optOr]
    · rw [if_neg hk1, dictGet_dictInsert]
      by_cases hk2 : k = p.prompt_field
      · subst hk2
        simp [hk1, hm, optOr]
      · simp [hk1, hk2, hm, optOr]
  · rw [if_neg hm, dictGet_dictInsert]
    by_cases hk2 : k = p.prompt_field <;> simp [hk2, hm, optOr]

/-- A provider exercising every layer of the submit body. -/
def layeredProvider : ProviderConfig :=
  { provider_id := "p6", base_url := "https://b", model := "default-model",
    extra_body := [("model", JsonValue.str "m0"), ("seed", JsonValue.num 42)] }

/-- Witness for C6: `extra_options` overrides both the resolved model
override and the `extra_body` entry under the `model` key. -/
theorem c6_submit_payload_layers_witness :
    dictGet (submit_payload layeredProvider "hi" " sora-2 "
        [("model", JsonValue.str "x"), ("duration", JsonValue.num 5)]) "model"
      = some (JsonValue.str "x") := by
  have h := c6_submit_payload_layers layeredProvider "hi" " sora-2 "
    [("model", JsonValue.str "x"), ("duration", JsonValue.num 5)] (by decide) "model"
  rw [h]
  rfl

section PollLemmas

theorem pollLoop_error_step (p : ProviderConfig) (q : Nat → Except String TaskSnapshot)
    (latest : TaskSnapshot) (consec attempt rem : Nat) (e : String)
    (hq : q attempt = .error e) (hlt : consec + 1 < 3) :
    pollLoop p q latest consec attempt (rem + 1) =
      pollLoop p q latest (consec + 1) (attempt + 1) rem := by
  simp only [pollLoop, hq]
  rw [if_neg (by omega)]

theorem pollLoop_error_abort (p : ProviderConfig) (q : Nat → Except String TaskSnapshot)
    (latest : TaskSnapshot) (consec attempt rem : Nat) (e : String)
    (hq : q attempt = .error e) (hge : 3 ≤ consec + 1) :
    pollLoop p q latest consec attempt (rem + 1) =
      ({ provider_id := latest.provider_id, task_id := latest.task_id,
         status := if latest.status = "" then "error" else latest.status,
         video_url := latest.video_url, error_message := e,
         raw := latest.raw }, attempt + 1) := by
  simp only [pollLoop, hq]
  rw [if_pos (by omega)]

theorem pollLoop_ok_step (p : ProviderConfig) (q : Nat → Except String TaskSnapshot)
    (latest s : TaskSnapshot) (consec attempt rem : Nat)
    (hq : q attempt = .ok s) (hterm : is_terminal p s = false) :
    pollLoop p q latest consec attempt (rem + 1) = pollLoop p q s 0 (attempt + 1) rem := by
  simp only [pollLoop, hq]
  rw [if_neg (by simp [hterm])]

end PollLemmas

/-- A submitted snapshot with a non-terminal, non-empty status. -/
def queuedSnap : TaskSnapshot :=
  { provider_id := "p1", task_id := "t1", status := "queued" }

/-- Claim C4, as stated, is false on the code: the synthesized snapshot's
status is `latest.status or "error"`, so when the job entered polling
with the non-empty status `"queued"` and every query fails, the aborting
snapshot keeps status `"queued"` rather than `"error"`. -/
theorem c4_status_error_counterexample :
    (wait_for_result defaultProvider queuedSnap 20
        (fun _ => Except.error "connection refused")).1.status = "queued"
    ∧ "queued" ≠ "error" := by
  constructor
  · rfl
  · decide

/-- Claim C4 (amended): when every query fails, the loop returns after
exactly 3 consecutive failed attempts — never issuing a fourth query —
with a synthesized snapshot whose error message is the last error's
text, whose task id is the last known task id, and whose status is the
last known status when non-empty and `"error"` otherwise; and a
successful (non-terminal) query resets the consecutive-error counter,
as the second conjunct's schedule (errors at attempts 0,1,3,4,5 and a
success at 2) aborts only after 6 queries, with the error text of
attempt 5 and the identifiers of the successfully fetched snapshot. -/
theorem c4_three_consecutive_errors_amended (p : ProviderConfig) (s s2 : TaskSnapshot)
    (attempts : Nat) (errs : Nat → String)
    (hterm : is_terminal p s = false) (htid : s.task_id ≠ "")
    (hterm2 : is_terminal p s2 = false) (hatt : 6 ≤ attempts) :
    wait_for_result p s attempts (fun k => Except.error (errs k)) =
      ({ provider_id := s.provider_id, task_id := s.task_id,
         status := if s.status = "" then "error" else s.status,
         video_url := s.video_url, error_message := errs 2, raw := s.raw }, 3)
    ∧ wait_for_result p s attempts
        (fun k => if k = 2 then Except.ok s2 else Except.error (errs k)) =
      ({ provider_id := s2.provider_id, task_id := s2.task_id,
         status := if s2.status = "" then "error" else s2.status,
         video_url := s2.video_url, error_message := errs 5, raw := s2.raw }, 6) := by
  obtain ⟨m, rfl⟩ : ∃ m, attempts = m + 6 := ⟨attempts - 6, by omega⟩
  have hmax : max (m + 6) 1 = (m + 3) + 3 := by omega
  constructor
  · simp only [wait_for_result, hterm, Bool.false_eq_true, if_false]
    rw [if_neg htid, hmax]
    rw [show (m + 3) + 3 = ((m + 3) + 2) + 1 from rfl,
      pollLoop_error_step p _ s 0 0 _ (errs 0) rfl (by omega),
      show (m + 3) + 2 = ((m + 3) + 1) + 1 from rfl,
      pollLoop_error_step p _ s 1 1 _ (errs 1) rfl (by omega),
      pollLoop_error_abort p _ s 2 2 _ (errs 2) rfl (by omega)]
  · simp only [wait_for_result, hterm, Bool.false_eq_true, if_false]
    rw [if_neg htid, hmax]
    rw [show (m + 3) + 3 = ((m + 3) + 2) + 1 from rfl,
      pollLoop_error_step p _ s 0 0 _ (errs 0) rfl (by omega),
      show (m + 3) + 2 = ((m + 3) + 1) + 1 from rfl,
      pollLoop_error_step p _ s 1 1 _ (errs 1) rfl (by omega),
      show (m + 3) + 1 = (m + 3) + 1 from rfl,
      pollLoop_ok_step p _ s s2 2 2 _ rfl hterm2,
      show m + 3 = (m + 2) + 1 from rfl,
      pollLoop_error_step p _ s2 0 3 _ (errs 3) rfl (by omega),
      show m + 2 = (m + 1) + 1 from rfl,
      pollLoop_error_step p _ s2 1 4 _ (errs 4) rfl (by omega),
      show m + 1 = m + 1 from rfl,
      pollLoop_error_abort p _ s2 2 5 _ (errs 5) rfl (by omega)]

/-- Witness for the amended C4 at a concrete input. -/
theorem c4_three_consecutive_errors_amended_witness :
    wait_for_result defaultProvider queuedSnap 20 (fun k => Except.error (toString k)) =
      ({ provider_id := "p1", task_id := "t1", status := "queued",
         video_url := "", error_message := "2", raw := JsonValue.obj [] }, 3) := by
  have h := (c4_three_consecutive_errors_amended defaultProvider queuedSnap queuedSnap 20
    (fun k => toString k) (by decide) (by decide) (by decide) (by omega)).1
  simpa using h

theorem dictGet_isSome_loadItems (jp : String → Option JsonValue) (items : List JsonValue)
    (pid : String) :
    ∀ acc : List (String × ProviderConfig),
      (dictGet (loadItems jp items acc) pid).isSome = true ↔
        ((∃ item ∈ items, ∃ cfg, loadRecord jp item = some (pid, cfg))
          ∨ (dictGet acc pid).isSome = true) := by
  induction items with
  | nil =>
      intro acc
      simp [loadItems]
  | cons item rest ih =>
      intro acc
      cases hrec : loadRecord jp item with
      | none =>
          simp only [loadItems, hrec]
          rw [ih acc]
          constructor
          · rintro (⟨x, hx, hc⟩ | h)
            · exact Or.inl ⟨x, List.mem_cons_of_mem _ hx, hc⟩
            · exact Or.inr h
          · rintro (⟨x, hx, hc⟩ | h)
            · rcases List.mem_cons.mp hx with rfl | hx'
              · obtain ⟨cfg, hcfg⟩ := hc
                rw [hrec] at hcfg
                exact absurd hcfg (by simp)
              · exact Or.inl ⟨x, hx', hc⟩
            · exact Or.inr h
      | some pc =>
          obtain ⟨pid', cfg'⟩ := pc
          simp only [loadItems, hrec]
          rw [ih (dictInsert acc pid' cfg'), dictGet_dictInsert]
          by_cases hp : pid = pid'
          · subst hp
            simp only [if_pos rfl, Option.isSome_some]
            constructor
            · intro _
              exact Or.inl ⟨item, List.mem_cons_self item rest, cfg', hrec⟩
            · intro _
              exact Or.inr rfl
          · rw [if_neg hp]
            constructor
            · rintro (⟨x, hx, hc⟩ | h)
              · exact Or.inl ⟨x, List.mem_cons_of_mem _ hx, hc⟩
              · exact Or.inr h
            · rintro (⟨x, hx, hc⟩ | h)
              · rcases List.mem_cons.mp hx with rfl | hx'
                · obtain ⟨cfg, hcfg⟩ := hc
                  rw [hrec] at hcfg
                  have : pid' = pid := by
                    have := Option.some.inj hcfg
                    exact congrArg Prod.fst this
                  exact absurd this.symm hp
                · exact Or.inl ⟨x, hx', hc⟩
              · exact Or.inr h

/-- A valid provider record mapping. -/
def goodItem : JsonValue :=
  .obj [("provider_id", .str "good"), ("base_url", .str "https://g")]

/-- A provider record with the unsupported `submit_method` `TRACE`. -/
def traceItem : JsonValue :=
  .obj [("provider_id", .str "bad"), ("base_url", .str "https://b"),
        ("submit_method", .str "TRACE")]

/-- Claim C8: the loaded map has an entry under an id exactly when some
record in the input list passes the per-record validation (`loadRecord`:
a mapping, non-blank `provider_id` and `base_url`, both methods in the
valid set) with that id — invalid records are skipped without affecting
any other record, and the fold is total, so the load never raises.
Concretely, a list of a valid record and a `TRACE` record loads only the
valid one. -/
theorem c8_loader_keeps_valid_records :
    (∀ (jp : String → Option JsonValue) (items : List JsonValue) (pid : String),
      (dictGet (load_providers jp (JsonValue.arr items)) pid).isSome = true ↔
        ∃ item ∈ items, ∃ cfg, loadRecord jp item = some (pid, cfg))
    ∧ (dictGet (load_providers (fun _ => none) (JsonValue.arr [goodItem, traceItem]))
        "good").isSome = true
    ∧ (dictGet (load_providers (fun _ => none) (JsonValue.arr [goodItem, traceItem]))
        "bad").isSome = false := by
  refine ⟨?_, ?_, ?_⟩
  · intro jp items pid
    simp only [load_providers]
    rw [dictGet_isSome_loadItems]
    simp [dictGet]
  · rfl
  · rfl

/-- `TASK_CACHE_MAX` bound reached: a cache of 200 distinct task ids. -/
def fullCache : List (String × JsonValue) :=
  (List.range TASK_CACHE_MAX).map (fun i => (toString i, JsonValue.null))

theorem cacheEvict_length_le {α : Type} (fuel : Nat) :
    ∀ c : List (String × α),
      (cacheEvict fuel c).length ≤ max TASK_CACHE_MAX (c.length - fuel) := by
  induction fuel with
  | zero =>
      intro c
      simp [cacheEvict]
  | succ n ih =>
      intro c
      simp only [cacheEvict]
      by_cases h : TASK_CACHE_MAX < c.length
      · rw [if_pos h]
        have := ih c.tail
        have hlen : c.tail.length = c.length - 1 := List.length_tail c
        omega
      · rw [if_neg h]
        omega

/-- Claim C9: `_save_task` does keep the cache within `_TASK_CACHE_MAX`
(its eviction loop even trims an oversized cache), but `_load_task`
inserts a store-loaded record without running any eviction, so a cache
already at the bound grows to 201 entries — the claimed invariant "at
most 200 entries after every operation that touches the cache" is
violated by the load path. -/
theorem c9_cache_bound_violated_by_load :
    (∀ (cache : List (String × JsonValue)) (tid : String) (rec : JsonValue),
        (save_task_cache cache tid rec).length ≤ TASK_CACHE_MAX
          ∨ (tid = "" ∧ save_task_cache cache tid rec = cache))
    ∧ fullCache.length = TASK_CACHE_MAX
    ∧ ((load_task_cache fullCache (some JsonValue.null) "newtask").2.length
        = TASK_CACHE_MAX + 1) := by
  refine ⟨?_, ?_, ?_⟩
  · intro cache tid rec
    by_cases htid : tid = ""
    · right
      exact ⟨htid, by simp [save_task_cache, htid]⟩
    · left
      simp only [save_task_cache, if_neg htid]
      have h := cacheEvict_length_le (α := JsonValue)
        (dictInsert cache tid rec).length (dictInsert cache tid rec)
      omega
  · rfl
  · rfl

/-- Witness for C9's universally quantified save-side bound. -/
theorem c9_cache_bound_violated_by_load_witness :
    (save_task_cache ([] : List (String × JsonValue)) "t1" JsonValue.null).length
        ≤ TASK_CACHE_MAX
      ∨ ("t1" = "" ∧ save_task_cache ([] : List (String × JsonValue)) "t1" JsonValue.null
        = []) :=
  c9_cache_bound_violated_by_load.1 [] "t1" JsonValue.null

end VideoTool
